import Mathlib

/-!
Shallow embedding of the weather MCP server (src/weather/weather.py) and
verification of the behavioural claims about it.

Conventions of the embedding:
* Parsed JSON payloads are modelled by the inductive `Json`.
* Python runtime semantics (truthiness, `len`, subscripting, `dict.get`,
  iteration, `in`) are modelled by the `py*` helpers; a raised Python
  exception is an `Except.error` carrying a message.
* The single persisted cache file (`~/.cache/weather/location_cache.json`)
  is modelled by `CacheFile`: missing, existing-but-unparseable (`corrupt`),
  or existing with a parsed JSON document.
* Possible I/O faults of the environment are modelled by `IOEnv` flags:
  directory creation failing, opening the cache file for read failing,
  opening it for write failing.
* Network responses are modelled as already-parsed JSON bodies in `Env`
  (the provider always answers with some JSON payload); the search
  response additionally carries its HTTP status code.
-/

namespace Weather

/-- Parsed JSON values (Python objects produced by `json.load` /
`response.json()`). Numbers are modelled by integers; no claim depends on
fractional numeric payloads. -/
inductive Json where
  | null : Json
  | bool : Bool → Json
  | num : Int → Json
  | str : String → Json
  | arr : List Json → Json
  | obj : List (String × Json) → Json

/-- First value bound to a key in a (uniquely-keyed) JSON object, i.e.
Python `dict` lookup. -/
def lookupField : List (String × Json) → String → Option Json
  | [], _ => none
  | (k, v) :: rest, q => if k = q then some v else lookupField rest q

/-- Python `dict` assignment `d[q] = v`: replace the value in place if the
key is present (keeping insertion order), append otherwise. -/
def setField : List (String × Json) → String → Json → List (String × Json)
  | [], q, v => [(q, v)]
  | (k, w) :: rest, q, v =>
    if k = q then (q, v) :: rest else (k, w) :: setField rest q v

/-- Python truthiness of a JSON value. -/
def pyTruthy : Json → Bool
  | .null => false
  | .bool b => b
  | .num n => n != 0
  | .str s => s != ""
  | .arr l => !l.isEmpty
  | .obj l => !l.isEmpty

/-- Python `len`, raising `TypeError` on unsized values. -/
def pyLen : Json → Except String Nat
  | .arr l => .ok l.length
  | .obj l => .ok l.length
  | .str s => .ok s.length
  | _ => .error "TypeError: object has no len"

/-- Python integer subscription `x[i]` for a natural index. -/
def pyIndex : Json → Nat → Except String Json
  | .arr l, i =>
    match l.get? i with
    | some x => .ok x
    | none => .error "IndexError: list index out of range"
  | .str s, i =>
    match s.toList.get? i with
    | some ch => .ok (.str ch.toString)
    | none => .error "IndexError: string index out of range"
  | .obj _, _ => .error "KeyError: integer key"
  | _, _ => .error "TypeError: object is not subscriptable"

/-- Python string subscription `x["k"]`. -/
def pySubscript : Json → String → Except String Json
  | .obj fields, k =>
    match lookupField fields k with
    | some v => .ok v
    | none => .error ("KeyError: " ++ k)
  | .arr _, _ => .error "TypeError: list indices must be integers"
  | .str _, _ => .error "TypeError: string indices must be integers"
  | _, _ => .error "TypeError: object is not subscriptable"

/-- Python `x.get(k, d)` with an explicit default (`AttributeError` when
`x` is not a dict). -/
def pyGetD : Json → String → Json → Except String Json
  | .obj fields, k, d => .ok ((lookupField fields k).getD d)
  | _, _, _ => .error "AttributeError: object has no attribute get"

/-- Python `x.get(k)` (default `None`). -/
def pyGet (j : Json) (k : String) : Except String Json :=
  pyGetD j k .null

/-- Whether the character list `n` occurs as a prefix of `h`. -/
def charsPrefix : List Char → List Char → Bool
  | [], _ => true
  | _ :: _, [] => false
  | a :: as, b :: bs => a == b && charsPrefix as bs

/-- Whether `needle` occurs as a contiguous substring of `hay`. -/
def strSub (needle hay : String) : Bool :=
  (List.range (hay.toList.length + 1)).any
    (fun i => charsPrefix needle.toList (hay.toList.drop i))

mutual

/-- Python structural equality `==` on JSON values. -/
def jsonBeq : Json → Json → Bool
  | .null, .null => true
  | .bool a, .bool b => a == b
  | .num a, .num b => a == b
  | .str a, .str b => a == b
  | .arr a, .arr b => jsonBeqList a b
  | .obj a, .obj b => jsonBeqFields a b
  | _, _ => false

/-- `jsonBeq` lifted elementwise to lists. -/
def jsonBeqList : List Json → List Json → Bool
  | [], [] => true
  | a :: as, b :: bs => jsonBeq a b && jsonBeqList as bs
  | _, _ => false

/-- `jsonBeq` lifted to object field lists. -/
def jsonBeqFields : List (String × Json) → List (String × Json) → Bool
  | [], [] => true
  | (k1, v1) :: as, (k2, v2) :: bs =>
    k1 == k2 && jsonBeq v1 v2 && jsonBeqFields as bs
  | _, _ => false

end

/-- Python membership test `k in x` for a string `k`. -/
def pyContains : Json → String → Except String Bool
  | .obj fields, k => .ok (fields.any (fun p => p.1 == k))
  | .arr l, k => .ok (l.any (fun x => jsonBeq x (.str k)))
  | .str s, k => .ok (strSub k s)
  | _, _ => .error "TypeError: argument is not iterable"

/-- Python iteration over a JSON value: list elements, dict keys, or the
characters of a string; `TypeError` otherwise. -/
def pyIter : Json → Except String (List Json)
  | .arr l => .ok l
  | .obj l => .ok (l.map (fun p => .str p.1))
  | .str s => .ok (s.toList.map (fun ch => .str ch.toString))
  | _ => .error "TypeError: object is not iterable"

mutual

/-- Python `repr` of a JSON value (used only inside interpolated error
and display strings). -/
def pyRepr : Json → String
  | .null => "None"
  | .bool true => "True"
  | .bool false => "False"
  | .num n => toString n
  | .str s => "\x27" ++ s ++ "\x27"
  | .arr l => "[" ++ String.intercalate ", " (pyReprList l) ++ "]"
  | .obj l => "\x7b" ++ String.intercalate ", " (pyReprFields l) ++ "\x7d"

/-- `pyRepr` mapped over a list of values. -/
def pyReprList : List Json → List String
  | [] => []
  | x :: xs => pyRepr x :: pyReprList xs

/-- `pyRepr` mapped over the fields of an object. -/
def pyReprFields : List (String × Json) → List String
  | [] => []
  | (k, v) :: xs => ("\x27" ++ k ++ "\x27: " ++ pyRepr v) :: pyReprFields xs

end

/-- Python `str` of a JSON value, as used by f-string interpolation. -/
def pyStr : Json → String
  | .null => "None"
  | .bool true => "True"
  | .bool false => "False"
  | .num n => toString n
  | .str s => s
  | j => pyRepr j

/-- State of the location-cache file. -/
inductive CacheFile where
  | missing : CacheFile
  | corrupt : CacheFile
  | valid : Json → CacheFile

/-- Fault flags of the file-system environment. -/
structure IOEnv where
  mkdirFails : Bool
  readFails : Bool
  writeFails : Bool
deriving DecidableEq

/-- Outcome of `get_cached_location_key`: the returned value (or a raised
exception) together with the cache-file state afterwards. -/
structure LookupOut where
  ret : Except String (Option Json)
  file : CacheFile

/-- Embedding of `get_cached_location_key` (weather.py lines 108-118):
returns `None` when the file does not exist; opens and `json.load`s it
otherwise, catching only `JSONDecodeError` and `FileNotFoundError` (which
yield `None`); `cache.get(location)` on a non-dict document raises
`AttributeError`, and a failing `open` raises an uncaught `OSError`.
The file is only opened for reading and is never modified. -/
def get_cached_location_key (readFails : Bool) (file : CacheFile)
    (location : String) : LookupOut :=
  match file with
  | .missing => ⟨.ok none, .missing⟩
  | .corrupt =>
    if readFails then ⟨.error "OSError: could not read cache file", .corrupt⟩
    else ⟨.ok none, .corrupt⟩
  | .valid doc =>
    if readFails then ⟨.error "OSError: could not read cache file", .valid doc⟩
    else
      match doc with
      | .obj fields => ⟨.ok (lookupField fields location), .valid doc⟩
      | _ => ⟨.error "AttributeError: object has no attribute get", .valid doc⟩

/-- Outcome of `cache_location_key`: unit or a raised exception, the
cache-file state afterwards, and whether the warning was printed. -/
structure StoreOut where
  ret : Except String Unit
  file : CacheFile
  warned : Bool

/-- Embedding of `cache_location_key` (weather.py lines 120-136):
`CACHE_DIR.mkdir` runs OUTSIDE the `try` block, so a directory-creation
failure raises; inside the `try`, a read failure, a `json.load` failure,
a `cache[location] = ...` on a non-dict document, or a write failure is
caught by `except Exception` and only prints a warning, leaving the file
untouched; otherwise the updated mapping is written back. -/
def cache_location_key (io : IOEnv) (file : CacheFile) (location : String)
    (location_key : Json) : StoreOut :=
  if io.mkdirFails then
    ⟨.error "OSError: could not create cache directory", file, false⟩
  else
    match file with
    | .missing =>
      if io.writeFails then ⟨.ok (), .missing, true⟩
      else ⟨.ok (), .valid (.obj (setField [] location location_key)), false⟩
    | .corrupt => ⟨.ok (), .corrupt, true⟩
    | .valid doc =>
      if io.readFails then ⟨.ok (), .valid doc, true⟩
      else
        match doc with
        | .obj fields =>
          if io.writeFails then ⟨.ok (), .valid doc, true⟩
          else ⟨.ok (), .valid (.obj (setField fields location location_key)), false⟩
        | _ => ⟨.ok (), .valid doc, true⟩

/-- Embedding of `format_alert` (weather.py lines 38-47): reads
`feature["properties"]` (which may raise) and interpolates the optional
fields with their literal defaults into the alert template. -/
def format_alert (feature : Json) : Except String String :=
  match pySubscript feature "properties" with
  | .error e => .error e
  | .ok props =>
    match pyGetD props "event" (.str "Unknown") with
    | .error e => .error e
    | .ok ev =>
      match pyGetD props "areaDesc" (.str "Unknown") with
      | .error e => .error e
      | .ok area =>
        match pyGetD props "severity" (.str "Unknown") with
        | .error e => .error e
        | .ok sev =>
          match pyGetD props "description" (.str "No description available") with
          | .error e => .error e
          | .ok desc =>
            match pyGetD props "instruction"
                (.str "No specific instructions provided") with
            | .error e => .error e
            | .ok instr =>
              .ok ("\nEvent: " ++ pyStr ev ++ "\nArea: " ++ pyStr area
                ++ "\nSeverity: " ++ pyStr sev ++ "\nDescription: "
                ++ pyStr desc ++ "\nInstructions: " ++ pyStr instr ++ "\n")

/-- `format_alert` mapped over the features list (the list comprehension
in `get_alerts`), propagating the first raised exception. -/
def formatAlerts : List Json → Except String (List String)
  | [] => .ok []
  | f :: fs =>
    match format_alert f with
    | .error e => .error e
    | .ok s =>
      match formatAlerts fs with
      | .error e => .error e
      | .ok rest => .ok (s :: rest)

/-- Embedding of `get_alerts` (weather.py lines 50-67). Its input is the
value returned by `make_nws_request` (weather.py lines 24-36): `none`
models the `None` returned when the request or `raise_for_status` or JSON
parsing failed, `some d` the parsed response body. -/
def get_alerts (data : Option Json) : Except String String :=
  match data with
  | none => .ok "Unable to fetch alerts or no alerts found."
  | some d =>
    if !pyTruthy d then .ok "Unable to fetch alerts or no alerts found."
    else
      match pyContains d "features" with
      | .error e => .error e
      | .ok mem =>
        if !mem then .ok "Unable to fetch alerts or no alerts found."
        else
          match pySubscript d "features" with
          | .error e => .error e
          | .ok feats =>
            if !pyTruthy feats then .ok "No active alerts for this state."
            else
              match pyIter feats with
              | .error e => .error e
              | .ok fl =>
                match formatAlerts fl with
                | .error e => .error e
                | .ok alerts => .ok (String.intercalate "\n---\n" alerts)

/-- One entry of the `hourly_data` list built by `get_hourly_weather`
(weather.py lines 183-195), with the dict fields in source order. -/
structure HourlyPoint where
  relative_time : String
  temperature_value : Json
  temperature_unit : Json
  weather_text : Json
  precipitation_probability : Json
  precipitation_type : Json
  precipitation_intensity : Json

/-- The `relative_time` string built for 1-based position `i`:
the f-string produces a "+{i} hour(s)" encoding of the offset `i ≥ 1`. -/
def relativeTimeStr (i : Nat) : String :=
  "+" ++ toString i ++ (if 1 < i then " hours" else " hour")

/-- The loop body of `get_hourly_weather` over `enumerate(forecast, 1)`
(weather.py lines 183-195), starting at 1-based position `i`. -/
def buildHourly : List Json → Nat → Except String (List HourlyPoint)
  | [], _ => .ok []
  | hour :: rest, i =>
    match pySubscript hour "Temperature" with
    | .error e => .error e
    | .ok temp =>
      match pySubscript temp "Value" with
      | .error e => .error e
      | .ok tv =>
        match pySubscript temp "Unit" with
        | .error e => .error e
        | .ok tu =>
          match pySubscript hour "IconPhrase" with
          | .error e => .error e
          | .ok wt =>
            match pySubscript hour "PrecipitationProbability" with
            | .error e => .error e
            | .ok pp =>
              match pyGet hour "PrecipitationType" with
              | .error e => .error e
              | .ok pt =>
                match pyGet hour "PrecipitationIntensity" with
                | .error e => .error e
                | .ok pin =>
                  match buildHourly rest (i + 1) with
                  | .error e => .error e
                  | .ok tail =>
                    .ok (⟨relativeTimeStr i, tv, tu, wt, pp, pt, pin⟩ :: tail)

/-- The structured `current_data` dict (weather.py lines 200-209). -/
structure CurrentData where
  temperature_value : Json
  temperature_unit : Json
  weather_text : Json
  relative_humidity : Json
  precipitation : Json
  observation_time : Json

/-- The `current_conditions` field of the final payload: either the
structured dict or the literal fallback string (weather.py line 211). -/
inductive CurrentResult where
  | conditions : CurrentData → CurrentResult
  | text : String → CurrentResult

/-- The current-conditions formatting branch of `get_hourly_weather`
(weather.py lines 198-211): `if current_conditions and
len(current_conditions) > 0` takes the first element and extracts its
fields; the falsy/empty case yields the fallback string. -/
def currentSection (cc : Json) : Except String CurrentResult :=
  if pyTruthy cc then
    match pyLen cc with
    | .error e => .error e
    | .ok n =>
      if 0 < n then
        match pyIndex cc 0 with
        | .error e => .error e
        | .ok current =>
          match pySubscript current "Temperature" with
          | .error e => .error e
          | .ok temp =>
            match pySubscript temp "Metric" with
            | .error e => .error e
            | .ok metric =>
              match pySubscript metric "Value" with
              | .error e => .error e
              | .ok tv =>
                match pySubscript metric "Unit" with
                | .error e => .error e
                | .ok tu =>
                  match pySubscript current "WeatherText" with
                  | .error e => .error e
                  | .ok wt =>
                    match pyGet current "RelativeHumidity" with
                    | .error e => .error e
                    | .ok rh =>
                      match pyGetD current "HasPrecipitation" (.bool false) with
                      | .error e => .error e
                      | .ok hp =>
                        match pySubscript current "LocalObservationDateTime" with
                        | .error e => .error e
                        | .ok ot =>
                          .ok (.conditions ⟨tv, tu, wt, rh, hp, ot⟩)
      else .ok (.text "No current conditions available")
  else .ok (.text "No current conditions available")

/-- The final dict returned by `get_hourly_weather`
(weather.py lines 213-219), with fields in source order. -/
structure HourlyWeatherResult where
  location : Json
  location_key : Json
  country : Json
  current_conditions : CurrentResult
  hourly_forecast : List HourlyPoint

/-- Upstream environment of one `get_hourly_weather` invocation: the
city-search HTTP status and parsed body, the parsed current-conditions
and hourly-forecast bodies, and the file-system fault flags. -/
structure Env where
  searchStatus : Nat
  searchBody : Json
  currentBody : Json
  forecastBody : Json
  io : IOEnv

/-- Outcome of `get_hourly_weather`: the returned payload or the raised
exception, the cache-file state afterwards, and whether the cache-store
warning was printed. -/
structure HWOut where
  result : Except String HourlyWeatherResult
  file : CacheFile
  warned : Bool

/-- The tail of `get_hourly_weather` after the current-conditions and
forecast fetches (weather.py lines 165-219): builds `hourly_data` from
the forecast body, formats `current_data`, then builds the final dict —
whose first entry reads `locations[0]["LocalizedName"]`, raising
`NameError` when the local variable `locations` was never assigned
(`locationsVar = none`, i.e. the cache-hit path). -/
def finishRequest (env : Env) (c : CacheFile) (w : Bool)
    (locationsVar : Option Json) (location_key : Json) : HWOut :=
  match pyIter env.forecastBody with
  | .error e => ⟨.error e, c, w⟩
  | .ok hours =>
    match buildHourly hours 1 with
    | .error e => ⟨.error e, c, w⟩
    | .ok hourly_data =>
      match currentSection env.currentBody with
      | .error e => ⟨.error e, c, w⟩
      | .ok current_data =>
        match locationsVar with
        | none => ⟨.error "NameError: name locations is not defined", c, w⟩
        | some locations =>
          match pyIndex locations 0 with
          | .error e => ⟨.error e, c, w⟩
          | .ok l0 =>
            match pySubscript l0 "LocalizedName" with
            | .error e => ⟨.error e, c, w⟩
            | .ok name =>
              match pySubscript l0 "Country" with
              | .error e => ⟨.error e, c, w⟩
              | .ok cj =>
                match pySubscript cj "LocalizedName" with
                | .error e => ⟨.error e, c, w⟩
                | .ok ctry =>
                  ⟨.ok ⟨name, location_key, ctry, current_data, hourly_data⟩,
                    c, w⟩

/-- The cache-miss branch of `get_hourly_weather` (weather.py lines
148-163): parse the search body, check the status, fail on an empty
result list, take `locations[0]["Key"]`, store it in the cache, then run
the shared tail with the `locations` variable bound. -/
def missSearch (env : Env) (c : CacheFile) (location : String) : HWOut :=
  if env.searchStatus != 200 then
    ⟨.error ("Error fetching location data: " ++ toString env.searchStatus
      ++ ", " ++ pyRepr env.searchBody), c, false⟩
  else if !pyTruthy env.searchBody then
    ⟨.error "Location not found", c, false⟩
  else
    match pyLen env.searchBody with
    | .error e => ⟨.error e, c, false⟩
    | .ok n =>
      if n = 0 then ⟨.error "Location not found", c, false⟩
      else
        match pyIndex env.searchBody 0 with
        | .error e => ⟨.error e, c, false⟩
        | .ok l0 =>
          match pySubscript l0 "Key" with
          | .error e => ⟨.error e, c, false⟩
          | .ok key =>
            match cache_location_key env.io c location key with
            | ⟨.error e, f, w⟩ => ⟨.error e, f, w⟩
            | ⟨.ok _, f, w⟩ => finishRequest env f w (some env.searchBody) key

/-- Embedding of `get_hourly_weather` (weather.py lines 138-219): consult
the cache; on a truthy cached key skip the search (leaving the local
variable `locations` unassigned); otherwise resolve and cache the key;
then fetch and normalize. -/
def get_hourly_weather (env : Env) (cache : CacheFile) (location : String) :
    HWOut :=
  match get_cached_location_key env.io.readFails cache location with
  | ⟨.error e, f⟩ => ⟨.error e, f, false⟩
  | ⟨.ok (some k), f⟩ =>
    if pyTruthy k then finishRequest env f false none k
    else missSearch env f location
  | ⟨.ok none, f⟩ => missSearch env f location

/-! ### Concrete inputs used by the witness runs -/

/-- A one-element city-search response body. -/
def searchBodyW : Json :=
  .arr [.obj [("Key", .str "328328"), ("LocalizedName", .str "London"),
              ("Country", .obj [("LocalizedName", .str "United Kingdom")])]]

/-- A one-entry hourly-forecast response body. -/
def forecastW : List Json :=
  [.obj [("Temperature", .obj [("Value", .num 20), ("Unit", .str "C")]),
         ("IconPhrase", .str "Sunny"),
         ("PrecipitationProbability", .num 10)]]

/-- A fault-free environment with a successful search, an empty
current-conditions array and the one-entry forecast. -/
def envW : Env :=
  ⟨200, searchBodyW, .arr [], .arr forecastW, ⟨false, false, false⟩⟩

/-- The payload `get_hourly_weather` produces from `envW` on an empty
cache. -/
def resW : HourlyWeatherResult :=
  ⟨.str "London", .str "328328", .str "United Kingdom",
   .text "No current conditions available",
   [⟨"+1 hour", .num 20, .str "C", .str "Sunny", .num 10, .null, .null⟩]⟩

/-- A fault-free environment whose city search returns an empty list. -/
def envE : Env := ⟨200, .arr [], .arr [], .arr [], ⟨false, false, false⟩⟩

/-! ### Helper lemmas -/

theorem lookupField_setField_self (m : List (String × Json)) (q : String)
    (k : Json) : lookupField (setField m q k) q = some k := by
  induction m with
  | nil => simp [setField, lookupField]
  | cons p rest ih =>
    obtain ⟨pk, pv⟩ := p
    by_cases h : pk = q
    · simp [setField, h, lookupField]
    · simp [setField, h, lookupField, ih]

theorem lookupField_setField_ne (m : List (String × Json)) (q q2 : String)
    (k : Json) (h : q2 ≠ q) :
    lookupField (setField m q k) q2 = lookupField m q2 := by
  induction m with
  | nil => simp [setField, lookupField, Ne.symm h]
  | cons p rest ih =>
    obtain ⟨pk, pv⟩ := p
    by_cases hpk : pk = q
    · subst hpk
      simp [setField, lookupField, Ne.symm h]
    · simp [setField, hpk, lookupField, ih]

theorem get_cached_location_key_file (rf : Bool) (c : CacheFile)
    (q : String) : (get_cached_location_key rf c q).file = c := by
  cases c with
  | missing => rfl
  | corrupt => cases rf <;> rfl
  | valid doc => cases rf <;> cases doc <;> rfl

theorem buildHourly_spec : ∀ (l : List Json) (i : Nat)
    (pts : List HourlyPoint), buildHourly l i = .ok pts →
    pts.length = l.length ∧
    ∀ j (hj : j < pts.length),
      (pts.get ⟨j, hj⟩).relative_time = relativeTimeStr (i + j)
  | [], i, pts, h => by
    simp only [buildHourly] at h
    cases h
    exact ⟨rfl, fun j hj => absurd hj (by simp)⟩
  | hour :: rest, i, pts, h => by
    simp only [buildHourly] at h
    split at h
    next => simp at h
    next temp hTemp =>
    split at h
    next => simp at h
    next tv hTv =>
    split at h
    next => simp at h
    next tu hTu =>
    split at h
    next => simp at h
    next wt hWt =>
    split at h
    next => simp at h
    next pp hPp =>
    split at h
    next => simp at h
    next pt hPt =>
    split at h
    next => simp at h
    next pin hPin =>
    split at h
    next => simp at h
    next tail hTail =>
    obtain rfl : (⟨relativeTimeStr i, tv, tu, wt, pp, pt, pin⟩ :: tail
        : List HourlyPoint) = pts := by simpa using h
    obtain ⟨ihlen, ihget⟩ := buildHourly_spec rest (i + 1) tail hTail
    refine ⟨by simp [ihlen], ?_⟩
    intro j hj
    cases j with
    | zero => simp [Nat.add_zero]
    | succ j2 =>
      have h2 := ihget j2 (by simpa using hj)
      have harith : i + 1 + j2 = i + (j2 + 1) := by omega
      simpa [List.get, harith] using h2

/-- Shape of every successful `finishRequest`: the `locations` variable
must be bound, and each field of the payload comes from its own source
(`location_key` from the resolver, `current_conditions` from the
current-conditions body, `hourly_forecast` from the forecast body,
name and country from `locations[0]`). -/
theorem finishRequest_ok (env : Env) (c : CacheFile) (w : Bool)
    (lv : Option Json) (k : Json) (r : HourlyWeatherResult)
    (h : (finishRequest env c w lv k).result = .ok r) :
    (∃ locations, lv = some locations ∧
      ∃ l0, pyIndex locations 0 = .ok l0 ∧
        pySubscript l0 "LocalizedName" = .ok r.location ∧
        ∃ cj, pySubscript l0 "Country" = .ok cj ∧
          pySubscript cj "LocalizedName" = .ok r.country) ∧
    r.location_key = k ∧
    currentSection env.currentBody = .ok r.current_conditions ∧
    ∃ hours, pyIter env.forecastBody = .ok hours ∧
      buildHourly hours 1 = .ok r.hourly_forecast := by
  unfold finishRequest at h
  split at h
  next => simp at h
  next hours hHours =>
  split at h
  next => simp at h
  next hourly hHourly =>
  split at h
  next => simp at h
  next current hCur =>
  split at h
  next => simp at h
  next locations =>
  split at h
  next => simp at h
  next l0 hL0 =>
  split at h
  next => simp at h
  next name hName =>
  split at h
  next => simp at h
  next cj hCj =>
  split at h
  next => simp at h
  next ctry hCtry =>
  obtain rfl : (⟨name, k, ctry, current, hourly⟩ : HourlyWeatherResult) = r := by
    simpa using h
  exact ⟨⟨locations, rfl, l0, hL0, hName, cj, hCj, hCtry⟩, rfl, hCur,
    hours, hHours, hHourly⟩

/-- Shape of every successful `missSearch`: all payload fields come from
their own sources, with the key taken from `locations[0]["Key"]`. -/
theorem missSearch_ok (env : Env) (c : CacheFile) (loc : String)
    (r : HourlyWeatherResult)
    (h : (missSearch env c loc).result = .ok r) :
    (∃ l0, pyIndex env.searchBody 0 = .ok l0 ∧
      pySubscript l0 "Key" = .ok r.location_key ∧
      pySubscript l0 "LocalizedName" = .ok r.location ∧
      ∃ cj, pySubscript l0 "Country" = .ok cj ∧
        pySubscript cj "LocalizedName" = .ok r.country) ∧
    currentSection env.currentBody = .ok r.current_conditions ∧
    ∃ hours, pyIter env.forecastBody = .ok hours ∧
      buildHourly hours 1 = .ok r.hourly_forecast := by
  unfold missSearch at h
  split at h
  next => simp at h
  next hStatus =>
  split at h
  next => simp at h
  next hTruthy =>
  split at h
  next => simp at h
  next n hLen =>
  split at h
  next => simp at h
  next hn =>
  split at h
  next => simp at h
  next l0 hL0 =>
  split at h
  next => simp at h
  next key hKey =>
  split at h
  next e f w hSt => simp at h
  next f w hSt =>
  obtain ⟨⟨locations, hlv, l0b, hL0b, hName, cj, hCj, hCtry⟩, hk, hCur,
    hours, hHours, hHourly⟩ := finishRequest_ok _ _ _ _ _ _ h
  obtain rfl : env.searchBody = locations := by injection hlv
  rw [hL0] at hL0b
  obtain rfl : l0 = l0b := by injection hL0b
  subst hk
  exact ⟨⟨l0, hL0, hKey, hName, cj, hCj, hCtry⟩, hCur, hours, hHours, hHourly⟩

/-- Shape of every successful `get_hourly_weather`: success is only
possible through the cache-miss search path, and every payload field
comes from its own upstream source. -/
theorem get_hourly_weather_ok (env : Env) (cache : CacheFile)
    (loc : String) (r : HourlyWeatherResult)
    (h : (get_hourly_weather env cache loc).result = .ok r) :
    (∃ l0, pyIndex env.searchBody 0 = .ok l0 ∧
      pySubscript l0 "Key" = .ok r.location_key ∧
      pySubscript l0 "LocalizedName" = .ok r.location ∧
      ∃ cj, pySubscript l0 "Country" = .ok cj ∧
        pySubscript cj "LocalizedName" = .ok r.country) ∧
    currentSection env.currentBody = .ok r.current_conditions ∧
    ∃ hours, pyIter env.forecastBody = .ok hours ∧
      buildHourly hours 1 = .ok r.hourly_forecast := by
  unfold get_hourly_weather at h
  split at h
  next => simp at h
  next k f =>
    split at h
    · obtain ⟨⟨locations, hlv, hrest⟩, hother⟩ := finishRequest_ok _ _ _ _ _ _ h
      simp at hlv
    · exact missSearch_ok _ _ _ _ h
  next f => exact missSearch_ok _ _ _ _ h

/-- When the cache lookup returns `None` (cache miss, caught decode
error, or missing file), `get_hourly_weather` is the search path run on
the unchanged cache file. -/
theorem hw_of_lookup_none (env : Env) (cache : CacheFile) (loc : String)
    (hmiss : (get_cached_location_key env.io.readFails cache loc).ret
      = .ok none) :
    get_hourly_weather env cache loc = missSearch env cache loc := by
  have hfile := get_cached_location_key_file env.io.readFails cache loc
  unfold get_hourly_weather
  rcases hlk : get_cached_location_key env.io.readFails cache loc with ⟨ret, f⟩
  rw [hlk] at hmiss hfile
  have hret : ret = .ok none := hmiss
  have hf : f = cache := hfile
  subst hret hf
  rfl

/-- The ocurrence test `any` over object fields agrees with
`lookupField` presence. -/
theorem any_key_eq_isSome (m : List (String × Json)) (q : String) :
    (m.any (fun p => p.1 == q)) = (lookupField m q).isSome := by
  induction m with
  | nil => rfl
  | cons p rest ih =>
    obtain ⟨pk, pv⟩ := p
    by_cases h : pk = q <;> simp [lookupField, h, ih]

/-! ### Claim theorems -/

/-- C1: the claim states that a `get_hourly_weather` invocation whose
location is already in the cache still succeeds and returns the
human-readable location and country names alongside the cached key. The
code instead raises: on a cache hit the local variable `locations` is
never assigned, yet the final payload reads `locations[0]` (weather.py
line 214). This theorem evaluates the embedding at such a failing input
(cached entry for the query, fault-free environment, well-formed upstream
responses): the call raises `NameError` instead of succeeding. -/
theorem c1_cache_hit_raises_name_error :
    (get_hourly_weather envW
      (.valid (.obj [("london", .str "328328")])) "london").result
    = .error "NameError: name locations is not defined" := rfl

/-- C2: whenever the hourly-forecast response is a list of M entries and
`get_hourly_weather` succeeds, the `hourly_forecast` sequence is built
from exactly those M entries in response order (`buildHourly`), has
length M, and its (j+1)-th point (1-indexed) carries the relative offset
j+1 ≥ 1, encoded by the source f-string as the `"+{j+1} hour(s)"` string
`relativeTimeStr (j+1)`. -/
theorem c2_relative_offset_indexing (env : Env) (cache : CacheFile)
    (loc : String) (l : List Json) (r : HourlyWeatherResult)
    (hf : env.forecastBody = .arr l)
    (hok : (get_hourly_weather env cache loc).result = .ok r) :
    buildHourly l 1 = .ok r.hourly_forecast ∧
    r.hourly_forecast.length = l.length ∧
    ∀ j (hj : j < r.hourly_forecast.length),
      (r.hourly_forecast.get ⟨j, hj⟩).relative_time = relativeTimeStr (j + 1)
      ∧ 1 ≤ j + 1 := by
  obtain ⟨hsearch, hcur, hours, hHours, hHourly⟩ :=
    get_hourly_weather_ok env cache loc r hok
  rw [hf] at hHours
  obtain rfl : l = hours := by simpa [pyIter] using hHours
  obtain ⟨hlen, hget⟩ := buildHourly_spec l 1 r.hourly_forecast hHourly
  refine ⟨hHourly, hlen, fun j hj => ⟨?_, by omega⟩⟩
  have hj2 := hget j hj
  simpa [Nat.add_comm] using hj2

/-- Witness for C2: the hypotheses hold on the fault-free environment
`envW` with the one-entry forecast `forecastW`, and the produced sequence
has length 1. -/
theorem c2_witness :
    envW.forecastBody = .arr forecastW ∧
    (get_hourly_weather envW .missing "london").result = .ok resW ∧
    resW.hourly_forecast.length = forecastW.length :=
  ⟨rfl, rfl,
    (c2_relative_offset_indexing envW .missing "london" forecastW resW
      rfl rfl).2.1⟩

/-- C3: on a cache miss (lookup returns `None`), a successful (HTTP 200)
city search whose body is the empty list makes `get_hourly_weather`
raise the `"Location not found"` error, with the cache file unchanged
and no warning printed — `cache_location_key` is never reached. -/
theorem c3_zero_result_fatality (env : Env) (cache : CacheFile)
    (loc : String)
    (hmiss : (get_cached_location_key env.io.readFails cache loc).ret
      = .ok none)
    (hst : env.searchStatus = 200)
    (hbody : env.searchBody = .arr []) :
    get_hourly_weather env cache loc
      = ⟨.error "Location not found", cache, false⟩ := by
  rw [hw_of_lookup_none env cache loc hmiss]
  unfold missSearch
  rw [hst, hbody]
  simp [pyTruthy]

/-- Witness for C3: concrete empty-search environment `envE` on an
absent cache file. -/
theorem c3_witness :
    (get_cached_location_key envE.io.readFails .missing "nowhere").ret
      = .ok none ∧
    envE.searchStatus = 200 ∧
    envE.searchBody = .arr [] ∧
    get_hourly_weather envE .missing "nowhere"
      = ⟨.error "Location not found", .missing, false⟩ :=
  ⟨rfl, rfl, rfl, c3_zero_result_fatality envE .missing "nowhere" rfl rfl rfl⟩

/-- C4: on a cache miss with a successful search returning N ≥ 1
results, resolution uses element 0 of the result list: every successful
payload carries `locations[0]["Key"]` as its location key, and the whole
outcome (payload, cache file, warning) is unchanged when the results
after element 0 are replaced by arbitrary other elements. -/
theorem c4_first_match_policy (cb fb : Json) (io : IOEnv)
    (cache : CacheFile) (loc : String) (l0 : Json)
    (rest1 rest2 : List Json) (k : Json)
    (hmiss : (get_cached_location_key io.readFails cache loc).ret = .ok none)
    (hkey : pySubscript l0 "Key" = .ok k) :
    (∀ r, (get_hourly_weather ⟨200, .arr (l0 :: rest1), cb, fb, io⟩
        cache loc).result = .ok r → r.location_key = k) ∧
    get_hourly_weather ⟨200, .arr (l0 :: rest1), cb, fb, io⟩ cache loc
      = get_hourly_weather ⟨200, .arr (l0 :: rest2), cb, fb, io⟩ cache loc := by
  have hred : ∀ rest : List Json,
      missSearch ⟨200, .arr (l0 :: rest), cb, fb, io⟩ cache loc
        = match cache_location_key io cache loc k with
          | ⟨.error e, f, w⟩ => ⟨.error e, f, w⟩
          | ⟨.ok _, f, w⟩ =>
            finishRequest ⟨200, .arr (l0 :: rest), cb, fb, io⟩ f w
              (some (.arr (l0 :: rest))) k := by
    intro rest
    unfold missSearch
    simp [pyTruthy, pyLen, pyIndex, hkey]
  constructor
  · intro r hok
    obtain ⟨⟨l0b, hL0, hKeyb, hrest1⟩, hrest2⟩ :=
      get_hourly_weather_ok _ cache loc r hok
    obtain rfl : l0 = l0b := by simpa [pyIndex] using hL0
    rw [hkey] at hKeyb
    injection hKeyb with hkr
    exact hkr.symm
  · rw [hw_of_lookup_none _ cache loc hmiss, hw_of_lookup_none _ cache loc hmiss,
      hred rest1, hred rest2]
    rcases cache_location_key io cache loc k with ⟨ret, f, w⟩
    cases ret with
    | error e => rfl
    | ok u => simp [finishRequest, pyIndex, List.get?]

/-- Witness for C4: a concrete cache miss where the second environment
has an extra null search result; the outcomes coincide. -/
theorem c4_witness :
    (get_cached_location_key (⟨false, false, false⟩ : IOEnv).readFails
      .missing "london").ret = .ok none ∧
    pySubscript (.obj [("Key", .str "328328")]) "Key" = .ok (.str "328328") ∧
    get_hourly_weather
        ⟨200, .arr [.obj [("Key", .str "328328")]], .arr [], .arr [],
          ⟨false, false, false⟩⟩ .missing "london"
      = get_hourly_weather
        ⟨200, .arr [.obj [("Key", .str "328328")], .null], .arr [], .arr [],
          ⟨false, false, false⟩⟩ .missing "london" :=
  ⟨rfl, rfl,
    (c4_first_match_policy (.arr []) (.arr []) ⟨false, false, false⟩
      .missing "london" (.obj [("Key", .str "328328")]) [] [.null]
      (.str "328328") rfl rfl).2⟩

/-- C5: whenever the current-conditions response is the empty array and
`get_hourly_weather` succeeds, the payload's `current_conditions` field
is exactly the `"No current conditions available"` fallback, while the
location name, country and hourly forecast are still populated from
their own sources (the search response and the forecast response). -/
theorem c5_current_conditions_degradation (env : Env) (cache : CacheFile)
    (loc : String) (r : HourlyWeatherResult)
    (hcc : env.currentBody = .arr [])
    (hok : (get_hourly_weather env cache loc).result = .ok r) :
    r.current_conditions = .text "No current conditions available" ∧
    (∃ l0, pyIndex env.searchBody 0 = .ok l0 ∧
      pySubscript l0 "LocalizedName" = .ok r.location ∧
      ∃ cj, pySubscript l0 "Country" = .ok cj ∧
        pySubscript cj "LocalizedName" = .ok r.country) ∧
    ∃ hours, pyIter env.forecastBody = .ok hours ∧
      buildHourly hours 1 = .ok r.hourly_forecast := by
  obtain ⟨⟨l0, hL0, hKey, hName, cj, hCj, hCtry⟩, hCur, hrest⟩ :=
    get_hourly_weather_ok env cache loc r hok
  rw [hcc] at hCur
  have hCur2 : Except.ok (ε := String)
      (CurrentResult.text "No current conditions available")
      = .ok r.current_conditions := hCur
  refine ⟨?_, ⟨l0, hL0, hName, cj, hCj, hCtry⟩, hrest⟩
  injection hCur2 with hh
  exact hh.symm

/-- Witness for C5: on `envW` (empty current-conditions array) the run
succeeds with the fallback string in `current_conditions`. -/
theorem c5_witness :
    envW.currentBody = .arr [] ∧
    (get_hourly_weather envW .missing "london").result = .ok resW ∧
    resW.current_conditions = .text "No current conditions available" :=
  ⟨rfl, rfl,
    (c5_current_conditions_degradation envW .missing "london" resW
      rfl rfl).1⟩

/-- C6: with a working file system, storing `(q, k)` and then looking
`q` up returns `k`, both on a fresh (missing) cache file and on a
pre-existing valid cache file with arbitrary other entries — which also
covers repeated invocations, since a successful store always leaves a
valid object file of that same shape. -/
theorem c6_cache_round_trip (q : String) (k : Json) (c : CacheFile)
    (hq : q ≠ "")
    (hc : c = .missing ∨ ∃ m, c = .valid (.obj m)) :
    (cache_location_key ⟨false, false, false⟩ c q k).ret = .ok () ∧
    (get_cached_location_key false
        (cache_location_key ⟨false, false, false⟩ c q k).file q).ret
      = .ok (some k) := by
  rcases hc with rfl | ⟨m, rfl⟩ <;>
    exact ⟨rfl, by simp [cache_location_key, get_cached_location_key,
      lookupField_setField_self]⟩

/-- Witness for C6: storing under the key "london" into a cache file
holding an unrelated "paris" entry, then looking "london" up. -/
theorem c6_witness :
    ("london" : String) ≠ "" ∧
    ((.valid (.obj [("paris", .str "2")]) : CacheFile) = .missing ∨
      ∃ m, (.valid (.obj [("paris", .str "2")]) : CacheFile)
        = .valid (.obj m)) ∧
    (get_cached_location_key false
        (cache_location_key ⟨false, false, false⟩
          (.valid (.obj [("paris", .str "2")])) "london" (.str "1")).file
        "london").ret
      = .ok (some (.str "1")) :=
  ⟨by decide, Or.inr ⟨[("paris", .str "2")], rfl⟩,
    (c6_cache_round_trip "london" (.str "1")
      (.valid (.obj [("paris", .str "2")])) (by decide)
      (Or.inr ⟨[("paris", .str "2")], rfl⟩)).2⟩

/-- C7 counterexample: the claim states the cache store never raises on
any I/O failure, directory creation included. But `CACHE_DIR.mkdir` runs
before the `try` block (weather.py line 122), so a directory-creation
failure propagates out of `cache_location_key`: here it raises on a
concrete input instead of returning with a warning. -/
theorem c7_mkdir_failure_raises :
    (cache_location_key ⟨true, false, false⟩ .missing "london"
      (.str "123")).ret
    = .error "OSError: could not create cache directory" := rfl

/-- C7 as amended: provided directory creation succeeds, the store never
raises — every read, parse, shape or write failure inside the `try` is
caught and only reported as a warning, so the caller keeps using the
in-memory key. -/
theorem c7_store_never_raises_amended (io : IOEnv) (c : CacheFile)
    (q : String) (k : Json) (hmk : io.mkdirFails = false) :
    (cache_location_key io c q k).ret = .ok () := by
  obtain ⟨mk, rf, wf⟩ := io
  have hmk2 : mk = false := hmk
  subst hmk2
  cases c with
  | missing => cases wf <;> rfl
  | corrupt => rfl
  | valid doc =>
    cases rf with
    | true => rfl
    | false => cases doc <;> first | rfl | (cases wf <;> rfl)

/-- Witness for C7 (amended): store into a corrupt cache file with both
read and write faults injected but working directory creation. -/
theorem c7_witness :
    (⟨false, true, true⟩ : IOEnv).mkdirFails = false ∧
    (cache_location_key ⟨false, true, true⟩ .corrupt "london"
      (.str "1")).ret = .ok () :=
  ⟨rfl, c7_store_never_raises_amended ⟨false, true, true⟩ .corrupt
    "london" (.str "1") rfl⟩

/-- C8: the cache lookup fails soft: a missing cache file (whatever the
read-fault state, since the file is never opened) and a present but
unparseable cache file (the `json.JSONDecodeError` case) both make
`get_cached_location_key` return `None` rather than raise — no parse
error propagates. -/
theorem c8_lookup_fails_soft (q : String) (rf : Bool) :
    (get_cached_location_key rf .missing q).ret = .ok none ∧
    (get_cached_location_key false .corrupt q).ret = .ok none :=
  ⟨rfl, rfl⟩

/-- C9: `get_alerts` returns the exact `"No active alerts for this
state."` sentinel when the response binds `"features"` to an empty list,
and the exact `"Unable to fetch alerts or no alerts found."` sentinel
both when the fetch failed (`make_nws_request` returned `None`) and when
the response object lacks the `"features"` key entirely. -/
theorem c9_alert_sentinels (f1 f2 : List (String × Json))
    (h1 : lookupField f1 "features" = some (.arr []))
    (h2 : lookupField f2 "features" = none) :
    get_alerts (some (.obj f1)) = .ok "No active alerts for this state." ∧
    get_alerts none = .ok "Unable to fetch alerts or no alerts found." ∧
    get_alerts (some (.obj f2))
      = .ok "Unable to fetch alerts or no alerts found." := by
  refine ⟨?_, rfl, ?_⟩
  · cases f1 with
    | nil => simp [lookupField] at h1
    | cons p rest =>
      have hmem : ((p :: rest).any (fun x => x.1 == "features")) = true := by
        rw [any_key_eq_isSome, h1]
        rfl
      have hsub : pySubscript (.obj (p :: rest)) "features"
          = .ok (.arr []) := by
        simp [pySubscript, h1]
      simp [get_alerts, pyTruthy, pyContains, hmem, hsub]
  · cases f2 with
    | nil => rfl
    | cons p rest =>
      have hmem : ((p :: rest).any (fun x => x.1 == "features")) = false := by
        rw [any_key_eq_isSome, h2]
        rfl
      simp [get_alerts, pyTruthy, pyContains, hmem]

/-- Witness for C9: a response with an empty features list and a
response missing the key. -/
theorem c9_witness :
    lookupField [("features", .arr [])] "features" = some (.arr []) ∧
    lookupField [("other", .num 1)] "features" = none ∧
    (get_alerts (some (.obj [("features", .arr [])]))
        = .ok "No active alerts for this state." ∧
      get_alerts none = .ok "Unable to fetch alerts or no alerts found." ∧
      get_alerts (some (.obj [("other", .num 1)]))
        = .ok "Unable to fetch alerts or no alerts found.") :=
  ⟨rfl, rfl,
    c9_alert_sentinels [("features", .arr [])] [("other", .num 1)] rfl rfl⟩

/-- C10: a store of `(q, k)` that fully succeeds (no exception, no
warning) preserves the cached value of every other query `q2 ≠ q`, as
observed through the lookup itself; and a lookup never changes the cache
file (it only ever opens it for reading). -/
theorem c10_store_frame (io : IOEnv) (c : CacheFile) (q : String)
    (k : Json)
    (hok : (cache_location_key io c q k).ret = .ok ())
    (hw : (cache_location_key io c q k).warned = false) :
    (∀ q2, q2 ≠ q →
      (get_cached_location_key false (cache_location_key io c q k).file
        q2).ret = (get_cached_location_key false c q2).ret) ∧
    (∀ rf c2 q2, (get_cached_location_key rf c2 q2).file = c2) := by
  refine ⟨?_, fun rf c2 q2 => get_cached_location_key_file rf c2 q2⟩
  intro q2 hq2
  obtain ⟨mk, rf, wf⟩ := io
  cases mk with
  | true => simp [cache_location_key] at hok
  | false =>
    cases c with
    | missing =>
      cases wf with
      | true => simp [cache_location_key] at hw
      | false =>
        simp [cache_location_key, get_cached_location_key,
          lookupField_setField_ne _ _ _ _ hq2, lookupField, Ne.symm hq2]
    | corrupt => simp [cache_location_key] at hw
    | valid doc =>
      cases rf with
      | true => simp [cache_location_key] at hw
      | false =>
        cases doc with
        | obj m =>
          cases wf with
          | true => simp [cache_location_key] at hw
          | false =>
            simp [cache_location_key, get_cached_location_key,
              lookupField_setField_ne _ _ _ _ hq2]
        | null => simp [cache_location_key] at hw
        | bool b => simp [cache_location_key] at hw
        | num n => simp [cache_location_key] at hw
        | str s => simp [cache_location_key] at hw
        | arr l => simp [cache_location_key] at hw

/-- Witness for C10: a fault-free store of ("b", "2") over a file
holding an "a" entry; looking "a" up is unchanged. -/
theorem c10_witness :
    (cache_location_key ⟨false, false, false⟩
      (.valid (.obj [("a", .str "1")])) "b" (.str "2")).ret = .ok () ∧
    (cache_location_key ⟨false, false, false⟩
      (.valid (.obj [("a", .str "1")])) "b" (.str "2")).warned = false ∧
    (get_cached_location_key false
        (cache_location_key ⟨false, false, false⟩
          (.valid (.obj [("a", .str "1")])) "b" (.str "2")).file "a").ret
      = (get_cached_location_key false
          (.valid (.obj [("a", .str "1")])) "a").ret :=
  ⟨rfl, rfl,
    (c10_store_frame ⟨false, false, false⟩
      (.valid (.obj [("a", .str "1")])) "b" (.str "2") rfl rfl).1
      "a" (by decide)⟩

end Weather
